import Mathlib

/-!
Verification development for the temporal-testing core of `copier_template_tester`.

Shallow embedding of `src/copier_template_tester/temporal.py`,
`src/copier_template_tester/_config.py`, `src/copier_template_tester/_vcs_utils.py`
and the temporal entry point of `src/copier_template_tester/main.py`.

External collaborators (the `git`/`jj`/`copier` subprocesses and the file
system) are modelled as explicit environment records describing each call's
outcome; the orchestration logic itself is translated statement by statement
from the Python source.
-/

namespace Ctt

/-! ## Python string helpers

Structural models of the Python string operations the source uses, defined
over `String.data` so they evaluate inside the kernel.  Whitespace is
Python's ASCII whitespace set (Python also treats some Unicode code points
as whitespace; none occur in diff output). -/

/-- The ASCII whitespace characters of Python's `str.strip`/`str.split`. -/
def pyIsSpace (c : Char) : Bool :=
  c == ' ' || c == '\t' || c == '\n' || c == '\r' || c == '\x0b' || c == '\x0c'

/-- Split a character list at every separator position (Python
`str.split(sep)` semantics: `n` separators yield `n + 1` fragments,
empty fragments preserved). -/
def splitListOn (p : Char → Bool) : List Char → List (List Char)
  | [] => [[]]
  | c :: rest =>
    if p c then [] :: splitListOn p rest
    else
      match splitListOn p rest with
      | [] => [[c]]
      | h :: t => (c :: h) :: t

/-- Model of Python `s.split('\n')`. -/
def pySplitOnNewline (s : String) : List String :=
  (splitListOn (fun c => c == '\n') s.data).map (fun l => String.mk l)

/-- Model of Python `str.split()` with no argument: split on whitespace runs
and drop empty fragments. -/
def pySplitWs (s : String) : List String :=
  ((splitListOn pyIsSpace s.data).filter (fun l => !l.isEmpty)).map
    (fun l => String.mk l)

/-- Model of Python `s.startswith(p)`. -/
def pyStartsWith (s p : String) : Bool :=
  p.data.isPrefixOf s.data

/-- Left-to-right non-overlapping removal of every occurrence of `a/`:
Python `s.replace('a/', '')` specialised to the constant pattern the source
passes. -/
def removeASlash : List Char → List Char
  | [] => []
  | [c] => [c]
  | c1 :: c2 :: rest =>
    if c1 == 'a' && c2 == '/' then removeASlash rest
    else c1 :: removeASlash (c2 :: rest)

/-- Model of Python `s.replace('a/', '')` on strings. -/
def pyReplaceASlash (s : String) : String :=
  String.mk (removeASlash s.data)

/-- Model of Python falsiness of `s.strip()`: `bool(s.strip())` is `false`
exactly when `s` is all whitespace (stripping leaves the empty string iff
every character is whitespace). -/
def pyStripTruthy (s : String) : Bool :=
  !(s.data.dropWhile pyIsSpace).isEmpty

/-! ## Data model (`temporal.py` dataclasses) -/

/-- `TemporalSnapshot` dataclass: configuration of one temporal test snapshot. -/
structure TemporalSnapshot where
  name : String
  ref : String
  description : String := ""
  template_data : List (String × String) := []
deriving Repr, DecidableEq

/-- `DiffResult` dataclass: result of diffing two directories. -/
structure DiffResult where
  has_changes : Bool
  patch_file : Option String
  changed : List String := []
  added : List String := []
  removed : List String := []
deriving Repr, DecidableEq

/-- `TemporalTestResult` dataclass: per-snapshot outcome of temporal testing. -/
structure TemporalTestResult where
  snapshot_name : String
  success : Bool
  has_differences : Bool
  diff_path : Option String
  error : Option String := none
  files_changed : List String := []
  files_added : List String := []
  files_removed : List String := []
deriving Repr, DecidableEq

/-! ## Diff Engine (`TemporalTester._generate_diff`)

The `git diff --no-index` subprocess is modelled by its observable output:
captured stdout plus the exit status.  `_generate_diff` is translated
line by line; note that the source never consults `returncode`.
-/

/-- Observable outcome of the `subprocess.run(['git', 'diff', '--no-index', ...])`
call: captured stdout and the process exit status. -/
structure DiffProc where
  stdout : String
  returncode : Int
deriving Repr, DecidableEq

/-- A file-system write performed via `Path.write_text`: target path and the
full content written (`write_text` creates or truncates the file). -/
structure FileWrite where
  path : String
  content : String
deriving Repr, DecidableEq

/-- One iteration of the parsing loop of `_generate_diff`: on a line starting
with `diff --git`, split on whitespace, and when at least 4 fields are
present append `parts[2].replace('a/', '')` to the accumulator. -/
def diffHeaderStep (acc : List String) (line : String) : List String :=
  if pyStartsWith line "diff --git" then
    let parts := pySplitWs line
    if 4 ≤ parts.length then acc ++ [pyReplaceASlash (parts.getD 2 "")]
    else acc
  else acc

/-- The full per-line parsing loop of `_generate_diff` over
`result.stdout.split('\n')`. -/
def extractChanged (lines : List String) : List String :=
  lines.foldl diffHeaderStep []

/-- `TemporalTester._generate_diff`, given the diff subprocess outcome and the
output file path.  Returns the `DiffResult` together with the write performed
by `output_file.write_text(result.stdout)` (which happens unconditionally). -/
def generate_diff (proc : DiffProc) (output_file : String) : DiffResult × FileWrite :=
  let write : FileWrite := ⟨output_file, proc.stdout⟩
  let has_changes : Bool := pyStripTruthy proc.stdout
  let changed : List String :=
    if has_changes then extractChanged (pySplitOnNewline proc.stdout) else []
  (⟨has_changes, if has_changes then some output_file else none, changed, [], []⟩, write)

/-! ## Snapshot Orchestrator (`TemporalTester.run_snapshot`)

Each external step is modelled by its outcome: `.ok` for a step that
completes, `.error msg` for a step that raises an exception rendering as
`msg` (the Python code stores `str(e)`).  The try/except/finally structure of
`run_snapshot` is translated into explicit case analysis, and the events
performed (temp-dir creation and collaborator subprocess/copy invocations)
are collected in order.
-/

/-- Side effects a trial can perform, in the order `run_snapshot` issues them. -/
inductive Event where
  | mkTempDir (path : String)
  | gitClone
  | gitCheckout
  | copyTreeOriginal
  | copierUpdate
  | copyTreeUpdated
  | gitDiff
  | rmTempDir (path : String)
deriving Repr, DecidableEq

/-- Outcomes of the external steps of one trial, in program order:
`git clone`, `git checkout <ref>` (together `_prepare_project`), the two
`_snapshot_state` copies, `copier update` (`_apply_template`), and the
`git diff` subprocess invocation (whose successful outcome is its captured
output, since `_generate_diff` itself then runs the pure parsing above). -/
structure TrialEnv where
  clone : Except String Unit
  checkout : Except String Unit
  snapshotOriginal : Except String Unit
  applyTemplate : Except String Unit
  snapshotUpdated : Except String Unit
  diffProc : Except String DiffProc
deriving Repr

/-- The failed `TemporalTestResult` built by the `except Exception` handler of
`run_snapshot` (and, identically, by the collection loop of `_run_parallel`). -/
def mkFailResult (name msg : String) : TemporalTestResult :=
  ⟨name, false, false, none, some msg, [], [], []⟩

/-- Observable outcome of one `run_snapshot` call: the returned result, the
post-run state of the trial's temporary directory (does it still exist, and
does it contain the cloned project?), and the events performed. -/
structure TrialOutcome where
  result : TemporalTestResult
  tempDirExists : Bool
  projectPresent : Bool
  events : List Event
deriving Repr, DecidableEq

/-- The temp directory path `run_snapshot` allocates for a snapshot:
`tempfile.gettempdir()/ctt-temporal/snapshot-<name>`. -/
def tempDirFor (snapshot : TemporalSnapshot) : String :=
  "/tmp/ctt-temporal/snapshot-" ++ snapshot.name

/-- The per-snapshot patch path `run_snapshot` hands to `_generate_diff`:
`<output_dir>/<name>/diff.patch`. -/
def diffPatchPath (output_dir : String) (snapshot : TemporalSnapshot) : String :=
  output_dir ++ "/" ++ snapshot.name ++ "/diff.patch"

/-- `TemporalTester.run_snapshot`: create the temp dir, run the six steps in
order inside `try`, convert any exception into a failed result in `except`,
and in `finally` remove the temp dir unless `keep_temp_dirs` is set.
`projectPresent` records whether `temp_dir/project` holds the clone after the
run: the `git clone` step populates it on success, and the final `rmtree`
removes the whole temp dir. -/
def run_snapshot (keep_temp_dirs : Bool) (output_dir : String)
    (snapshot : TemporalSnapshot) (env : TrialEnv) : TrialOutcome :=
  let tempDir := tempDirFor snapshot
  -- temp_dir.mkdir(parents=True, exist_ok=True); then the try block:
  let body : TemporalTestResult × Bool × List Event :=
    match env.clone with
    | .error m => (mkFailResult snapshot.name m, false, [.mkTempDir tempDir, .gitClone])
    | .ok _ =>
      match env.checkout with
      | .error m =>
        (mkFailResult snapshot.name m, true, [.mkTempDir tempDir, .gitClone, .gitCheckout])
      | .ok _ =>
        match env.snapshotOriginal with
        | .error m =>
          (mkFailResult snapshot.name m, true,
            [.mkTempDir tempDir, .gitClone, .gitCheckout, .copyTreeOriginal])
        | .ok _ =>
          match env.applyTemplate with
          | .error m =>
            (mkFailResult snapshot.name m, true,
              [.mkTempDir tempDir, .gitClone, .gitCheckout, .copyTreeOriginal, .copierUpdate])
          | .ok _ =>
            match env.snapshotUpdated with
            | .error m =>
              (mkFailResult snapshot.name m, true,
                [.mkTempDir tempDir, .gitClone, .gitCheckout, .copyTreeOriginal,
                  .copierUpdate, .copyTreeUpdated])
            | .ok _ =>
              match env.diffProc with
              | .error m =>
                (mkFailResult snapshot.name m, true,
                  [.mkTempDir tempDir, .gitClone, .gitCheckout, .copyTreeOriginal,
                    .copierUpdate, .copyTreeUpdated, .gitDiff])
              | .ok proc =>
                let diff_result := (generate_diff proc (diffPatchPath output_dir snapshot)).1
                (⟨snapshot.name, true, diff_result.has_changes, diff_result.patch_file,
                    none, diff_result.changed, diff_result.added, diff_result.removed⟩,
                  true,
                  [.mkTempDir tempDir, .gitClone, .gitCheckout, .copyTreeOriginal,
                    .copierUpdate, .copyTreeUpdated, .gitDiff])
  -- finally: if not self.keep_temp_dirs and temp_dir.exists(): shutil.rmtree(temp_dir)
  if keep_temp_dirs then
    ⟨body.1, true, body.2.1, body.2.2⟩
  else
    ⟨body.1, false, false, body.2.2 ++ [.rmTempDir tempDir]⟩

/-- The message of the first step of a trial that raises, if any
(exceptions propagate to the single `except Exception` handler in program
order, so the first failing step determines the caught exception). -/
def firstError (env : TrialEnv) : Option String :=
  match env.clone with
  | .error m => some m
  | .ok _ =>
    match env.checkout with
    | .error m => some m
    | .ok _ =>
      match env.snapshotOriginal with
      | .error m => some m
      | .ok _ =>
        match env.applyTemplate with
        | .error m => some m
        | .ok _ =>
          match env.snapshotUpdated with
          | .error m => some m
          | .ok _ =>
            match env.diffProc with
            | .error m => some m
            | .ok _ => none

/-! ## Batch execution (`run_all` / `_run_parallel`)

A parallel worker either runs `run_snapshot` to completion (every exception
inside the body is already converted there) or crashes at the
`future.result()` boundary, raising an exception that the collection loop
converts to a failed result.  `as_completed` yields futures in an arbitrary
completion order, modelled by an explicit list `completed`; the Python
`results_dict[snapshot.name] = result` assignments are modelled by prepending
to an association list, so that `List.lookup` (first match) sees the most
recent assignment, exactly like `dict` overwriting.
-/

/-- What `future.result()` observes for one submitted trial. -/
inductive WorkerOutcome where
  | ran (env : TrialEnv)
  | crashed (msg : String)

/-- The result stored into `results_dict` for one completed future: either the
worker's `run_snapshot` return value, or the error result built in the
`except` branch of the collection loop. -/
def collectOutcome (keep : Bool) (out : String) (s : TemporalSnapshot) :
    WorkerOutcome → TemporalTestResult
  | .ran env => (run_snapshot keep out s env).result
  | .crashed msg => mkFailResult s.name msg

/-- Events performed by one submitted trial (a crashed worker performs no
complete trial; its events are not observed by the claims and are modelled
as none). -/
def workerEvents (keep : Bool) (out : String) (s : TemporalSnapshot) :
    WorkerOutcome → List Event
  | .ran env => (run_snapshot keep out s env).events
  | .crashed _ => []

/-- `results_dict` after the `as_completed` loop, given the completion order. -/
def buildResultsDict (keep : Bool) (out : String)
    (wenv : TemporalSnapshot → WorkerOutcome) (completed : List TemporalSnapshot) :
    List (String × TemporalTestResult) :=
  completed.foldl (fun d s => (s.name, collectOutcome keep out s (wenv s)) :: d) []

/-- `TemporalTester._run_parallel`: submit every snapshot, collect into the
dict, then return `[results_dict[s.name] for s in snapshots]`.  A missing key
would be a Python `KeyError`; the model totalizes it with a sentinel, and the
lemmas below show the lookup always succeeds. -/
def run_parallel (keep : Bool) (out : String) (snapshots : List TemporalSnapshot)
    (wenv : TemporalSnapshot → WorkerOutcome) (completed : List TemporalSnapshot) :
    List TemporalTestResult :=
  let dict := buildResultsDict keep out wenv completed
  snapshots.map (fun s => (dict.lookup s.name).getD (mkFailResult s.name "KeyError"))

/-- The serial loop of `run_all`. -/
def run_serial (keep : Bool) (out : String) (snapshots : List TemporalSnapshot)
    (env : TemporalSnapshot → TrialEnv) : List TemporalTestResult :=
  snapshots.map (fun s => (run_snapshot keep out s (env s)).result)

/-- `TemporalTester.run_all`: empty input short-circuits to `[]`; otherwise
dispatch to the serial loop or `_run_parallel`.  The second component
collects every event performed by the run. -/
def run_all (keep : Bool) (out : String) (snapshots : List TemporalSnapshot)
    (parallel : Bool) (env : TemporalSnapshot → TrialEnv)
    (wenv : TemporalSnapshot → WorkerOutcome) (completed : List TemporalSnapshot) :
    List TemporalTestResult × List Event :=
  if snapshots.isEmpty then ([], [])
  else if parallel then
    (run_parallel keep out snapshots wenv completed,
      completed.flatMap (fun s => workerEvents keep out s (wenv s)))
  else
    (run_serial keep out snapshots env,
      snapshots.flatMap (fun s => (run_snapshot keep out s (env s)).events))

/-! ## Temporal configuration (`_config.load_temporal_config`)

The parsed TOML `[temporal]` table is modelled field by field: optional
fields are `Option`, `get(..., default)` accesses become `Option.getD`.  A
raised `ValueError` becomes `Except.error` with the source's message (the
second snapshot message wraps the name in single quotes in the source;
the model drops the quote characters only). -/

/-- One raw `[[temporal.snapshots]]` TOML table. -/
structure RawSnapshotTable where
  name : Option String := none
  ref : Option String := none
  description : Option String := none
  template_data : List (String × String) := []
deriving Repr

/-- The raw `[temporal]` TOML table (`config.get('temporal', {})` yields the
empty table, i.e. all defaults). -/
structure RawTemporalTable where
  enabled : Bool := false
  mode : Option String := none
  source_project : Option String := none
  parallel : Bool := false
  keep_temp_dirs : Bool := false
  snapshots : List RawSnapshotTable := []
deriving Repr

/-- The `temporal_settings` dict assembled by `load_temporal_config`. -/
structure TemporalSettings where
  enabled : Bool
  mode : String
  source_project : String
  parallel : Bool
  keep_temp_dirs : Bool
deriving Repr, DecidableEq

/-- The per-snapshot validation loop: the first table missing `name` or `ref`
raises `ValueError`; otherwise each table becomes a `TemporalSnapshot` in
order. -/
def parseSnapshots : List RawSnapshotTable → Except String (List TemporalSnapshot)
  | [] => .ok []
  | c :: rest =>
    match c.name with
    | none => .error "Temporal snapshot missing required field: name"
    | some n =>
      match c.ref with
      | none => .error ("Temporal snapshot " ++ n ++ " missing required field: ref")
      | some r =>
        match parseSnapshots rest with
        | .error m => .error m
        | .ok snaps => .ok (⟨n, r, c.description.getD "", c.template_data⟩ :: snaps)

/-- `load_temporal_config` (after `load_config` succeeded), given the parsed
`[temporal]` table if present.  Returns `(none, [])` for the source's
`({}, [])` when temporal testing is not enabled; `source_project` must be
present and truthy (Python `if not ...` rejects both `None` and the empty
string). -/
def load_temporal_config (temporal : Option RawTemporalTable) :
    Except String (Option TemporalSettings × List TemporalSnapshot) :=
  let tc := temporal.getD {}
  if !tc.enabled then .ok (none, [])
  else
    match tc.source_project with
    | none => .error "Temporal testing enabled but source_project not specified in [temporal]"
    | some sp =>
      if sp = "" then
        .error "Temporal testing enabled but source_project not specified in [temporal]"
      else
        match parseSnapshots tc.snapshots with
        | .error m => .error m
        | .ok snaps =>
          .ok (some ⟨tc.enabled, tc.mode.getD "copy_history", sp,
            tc.parallel, tc.keep_temp_dirs⟩, snaps)

/-- `main.run_temporal`, reduced to its observable trial activity: load the
configuration (a `ValueError` is caught, logged and aborts the run before any
tester is constructed), return early when temporal testing is disabled or no
snapshots exist, and otherwise run `run_all` with the parallel/keep-temp-dirs
overrides applied.  The value is the list of events the run performed. -/
def run_temporal (temporal : Option RawTemporalTable) (out : String)
    (parallelOverride : Option Bool) (keepFlag : Bool)
    (env : TemporalSnapshot → TrialEnv)
    (wenv : TemporalSnapshot → WorkerOutcome) (completed : List TemporalSnapshot) :
    List Event :=
  match load_temporal_config temporal with
  | .error _ => []
  | .ok (none, _) => []
  | .ok (some settings, snapshots) =>
    match snapshots with
    | [] => []
    | _ :: _ =>
      let use_parallel := parallelOverride.getD settings.parallel
      let use_keep := keepFlag || settings.keep_temp_dirs
      (run_all use_keep out snapshots use_parallel env wenv completed).2

/-! ## VCS auto-detection (`_vcs_utils.detect_vcs`)

The file-system marker checks and the two root-resolution commands are
modelled by their outcomes; the returned trace records which subprocesses
were spawned, in order.
-/

/-- The two concrete VCS backends. -/
inductive VCSKind where
  | jujutsu
  | git
deriving Repr, DecidableEq

/-- Root-resolution subprocess invocations `detect_vcs` can spawn. -/
inductive VCSCmd where
  | jjWorkspaceRoot
  | gitRevParse
deriving Repr, DecidableEq

/-- Environment of `detect_vcs`: the marker checks on `.jj` and `.git`
directories under `cwd`, and the outcomes of `jj workspace root` and
`git rev-parse --show-toplevel` (an `.error` is a raised `RuntimeError` or
`CalledProcessError`, which the source catches). -/
structure VCSEnv where
  jjDirExists : Bool
  gitDirExists : Bool
  jjRootCmd : Except Unit String
  gitRootCmd : Except Unit String

/-- `detect_vcs`: marker checks first (no subprocess), then the `jj` command,
then the `git` command, else `RuntimeError`.  Returns the detection outcome
and the subprocesses spawned. -/
def detect_vcs (cwd : String) (env : VCSEnv) : Except String VCSKind × List VCSCmd :=
  if env.jjDirExists then (.ok .jujutsu, [])
  else if env.gitDirExists then (.ok .git, [])
  else
    match env.jjRootCmd with
    | .ok _ => (.ok .jujutsu, [.jjWorkspaceRoot])
    | .error _ =>
      match env.gitRootCmd with
      | .ok _ => (.ok .git, [.jjWorkspaceRoot, .gitRevParse])
      | .error _ =>
        (.error ("No VCS detected in " ++ cwd ++ " (tried: jujutsu, git)"),
          [.jjWorkspaceRoot, .gitRevParse])

/-! ## Concrete sample inputs (used by witnesses and counterexamples) -/

/-- Sample snapshot spec `v1`. -/
def sampleSnapA : TemporalSnapshot := ⟨"v1", "v1.0.0", "", []⟩

/-- Sample snapshot spec `v2`. -/
def sampleSnapB : TemporalSnapshot := ⟨"v2", "v2.0.0", "", []⟩

/-- A trial environment in which every step completes and the diff is empty. -/
def sampleEnvOk : TrialEnv := ⟨.ok (), .ok (), .ok (), .ok (), .ok (), .ok ⟨"", 0⟩⟩

/-- A trial environment in which the `git clone` step raises. -/
def envCloneFail : TrialEnv :=
  ⟨.error "fatal: repository not found", .ok (), .ok (), .ok (), .ok (), .ok ⟨"", 0⟩⟩

/-- A trial environment in which the `git checkout` step raises. -/
def envCheckoutFail : TrialEnv :=
  ⟨.ok (), .error "error: pathspec did not match any file known to git",
    .ok (), .ok (), .ok (), .ok ⟨"", 0⟩⟩

/-- A trial environment in which every step completes, but the `git diff`
subprocess exits with status 2 (an unexpected error exit, not the
differences-found exit 1) and empty stdout. -/
def envDiffErrorExit : TrialEnv := ⟨.ok (), .ok (), .ok (), .ok (), .ok (), .ok ⟨"", 2⟩⟩

/-- A `git diff` output for a run in which exactly one file differs. -/
def sampleDiffOutput : String :=
  "diff --git a/original/file.txt b/updated/file.txt\n--- a/original/file.txt\n+++ b/updated/file.txt\n@@ -1 +1 @@\n-old\n+new\n"

/-! ## Helper lemmas -/

/-- On lines none of which start with `diff --git`, the parsing loop leaves
the accumulator unchanged. -/
theorem foldl_diffHeaderStep_const (lines : List String) (acc : List String)
    (h : ∀ l ∈ lines, pyStartsWith l "diff --git" = false) :
    lines.foldl diffHeaderStep acc = acc := by
  induction lines generalizing acc with
  | nil => rfl
  | cons l ls ih =>
    have hl := h l (List.mem_cons_self l ls)
    rw [List.foldl_cons, show diffHeaderStep acc l = acc from by simp [diffHeaderStep, hl]]
    exact ih acc fun x hx => h x (List.mem_cons_of_mem l hx)

/-- A 4-field `diff --git` header line appends its third field, with every
occurrence of `a/` removed, to the accumulator. -/
theorem diffHeaderStep_header (acc : List String) (header a b : String)
    (hstart : pyStartsWith header "diff --git" = true)
    (hparts : pySplitWs header = ["diff", "--git", a, b]) :
    diffHeaderStep acc header = acc ++ [pyReplaceASlash a] := by
  simp [diffHeaderStep, hstart, hparts, List.getD]

/-- A diff output consisting of one 4-field `diff --git` header followed by
non-header lines parses to exactly one changed path. -/
theorem extractChanged_single_header (header : String) (rest : List String) (a b : String)
    (hstart : pyStartsWith header "diff --git" = true)
    (hparts : pySplitWs header = ["diff", "--git", a, b])
    (hrest : ∀ l ∈ rest, pyStartsWith l "diff --git" = false) :
    extractChanged (header :: rest) = [pyReplaceASlash a] := by
  unfold extractChanged
  rw [List.foldl_cons, diffHeaderStep_header [] header a b hstart hparts, List.nil_append]
  exact foldl_diffHeaderStep_const rest _ hrest

/-- Any failing step yields exactly the handler's failure result. -/
theorem run_snapshot_result_of_firstError (keep : Bool) (out : String)
    (s : TemporalSnapshot) (env : TrialEnv) (m : String)
    (h : firstError env = some m) :
    (run_snapshot keep out s env).result = mkFailResult s.name m := by
  obtain ⟨c, co, so, ap, su, d⟩ := env
  cases c <;> cases co <;> cases so <;> cases ap <;> cases su <;> cases d <;>
    simp_all [firstError, run_snapshot] <;> cases keep <;> simp

/-- A trial in which every step completes returns the success-shaped result
built from the diff outcome. -/
theorem run_snapshot_result_of_ok (keep : Bool) (out : String)
    (s : TemporalSnapshot) (env : TrialEnv) (proc : DiffProc)
    (hc : env.clone = .ok ()) (hco : env.checkout = .ok ())
    (hso : env.snapshotOriginal = .ok ()) (hap : env.applyTemplate = .ok ())
    (hsu : env.snapshotUpdated = .ok ()) (hd : env.diffProc = .ok proc) :
    (run_snapshot keep out s env).result =
      ⟨s.name, true, (generate_diff proc (diffPatchPath out s)).1.has_changes,
        (generate_diff proc (diffPatchPath out s)).1.patch_file, none,
        (generate_diff proc (diffPatchPath out s)).1.changed,
        (generate_diff proc (diffPatchPath out s)).1.added,
        (generate_diff proc (diffPatchPath out s)).1.removed⟩ := by
  obtain ⟨c, co, so, ap, su, d⟩ := env
  subst hc hco hso hap hsu hd
  cases keep <;> rfl

/-- The result of a trial always carries the snapshot's own name. -/
theorem run_snapshot_name (keep : Bool) (out : String)
    (s : TemporalSnapshot) (env : TrialEnv) :
    (run_snapshot keep out s env).result.snapshot_name = s.name := by
  obtain ⟨c, co, so, ap, su, d⟩ := env
  cases c <;> cases co <;> cases so <;> cases ap <;> cases su <;> cases d <;>
    cases keep <;> rfl

/-- `success` is `true` exactly when no step failed, and `error` is `none`
exactly when no step failed. -/
theorem run_snapshot_success_iff (keep : Bool) (out : String)
    (s : TemporalSnapshot) (env : TrialEnv) :
    ((run_snapshot keep out s env).result.success = true ↔ firstError env = none) ∧
    ((run_snapshot keep out s env).result.error = none ↔ firstError env = none) := by
  obtain ⟨c, co, so, ap, su, d⟩ := env
  cases c <;> cases co <;> cases so <;> cases ap <;> cases su <;> cases d <;>
    cases keep <;> simp [run_snapshot, firstError, mkFailResult]

/-- Post-run temp-dir state: without retention the directory is gone on every
path; with retention it survives, containing the clone iff cloning succeeded. -/
theorem run_snapshot_tempdir (keep : Bool) (out : String)
    (s : TemporalSnapshot) (env : TrialEnv) :
    (run_snapshot keep out s env).tempDirExists = keep ∧
    (run_snapshot keep out s env).projectPresent =
      (keep && (env.clone matches .ok _)) := by
  obtain ⟨c, co, so, ap, su, d⟩ := env
  cases c <;> cases co <;> cases so <;> cases ap <;> cases su <;> cases d <;>
    cases keep <;> simp [run_snapshot]

theorem buildResultsDict_eq (keep : Bool) (out : String)
    (wenv : TemporalSnapshot → WorkerOutcome) (completed : List TemporalSnapshot) :
    buildResultsDict keep out wenv completed =
      (completed.map (fun s => (s.name, collectOutcome keep out s (wenv s)))).reverse := by
  suffices h : ∀ acc : List (String × TemporalTestResult),
      completed.foldl (fun d s => (s.name, collectOutcome keep out s (wenv s)) :: d) acc =
        (completed.map (fun s => (s.name, collectOutcome keep out s (wenv s)))).reverse ++ acc by
    simpa using h []
  induction completed with
  | nil => intro acc; rfl
  | cons c cs ih =>
    intro acc
    simp [List.foldl_cons, ih, List.reverse_cons]

/-- A lookup in an association list whose keys include `k` succeeds. -/
theorem lookup_isSome_of_mem {β : Type} (l : List (String × β)) (k : String)
    (h : k ∈ l.map Prod.fst) : ∃ r, l.lookup k = some r := by
  induction l with
  | nil => simp at h
  | cons p ps ih =>
    by_cases hk : k = p.1
    · exact ⟨p.2, by simp [List.lookup, hk]⟩
    · have : k ∈ ps.map Prod.fst := by
        rcases List.mem_map.mp h with ⟨q, hq, hqk⟩
        rcases List.mem_cons.mp hq with rfl | hq
        · exact absurd hqk.symm hk
        · exact List.mem_map.mpr ⟨q, hq, hqk⟩
      rcases ih this with ⟨r, hr⟩
      refine ⟨r, ?_⟩
      have hbeq : (k == p.1) = false := beq_eq_false_iff_ne.mpr hk
      simp [List.lookup, hbeq, hr]

/-- A successful lookup returns a value satisfying any property that holds of
every entry of the association list, at the looked-up key. -/
theorem lookup_entry_prop {β : Type} (P : String → β → Prop)
    (l : List (String × β)) (k : String) (r : β)
    (hP : ∀ p ∈ l, P p.1 p.2) (h : l.lookup k = some r) : P k r := by
  induction l with
  | nil => simp [List.lookup] at h
  | cons p ps ih =>
    rcases hbeq : (k == p.1) with _ | _
    · have h' : ps.lookup k = some r := by
        simpa [List.lookup, hbeq] using h
      exact ih (fun q hq => hP q (List.mem_cons_of_mem p hq)) h'
    · have hk : k = p.1 := eq_of_beq hbeq
      have hr : r = p.2 := by
        have := h
        simp [List.lookup, hbeq] at this
        exact this.symm
      subst hk; subst hr
      exact hP p (List.mem_cons_self p ps)

/-- Every entry of `results_dict` is keyed by the name of the snapshot whose
completion stored it, and the stored result carries that same name. -/
theorem buildResultsDict_entries (keep : Bool) (out : String)
    (wenv : TemporalSnapshot → WorkerOutcome) (completed : List TemporalSnapshot) :
    ∀ p ∈ buildResultsDict keep out wenv completed, p.2.snapshot_name = p.1 := by
  intro p hp
  rw [buildResultsDict_eq] at hp
  rcases List.mem_map.mp (List.mem_reverse.mp hp) with ⟨s, _, rfl⟩
  cases h : wenv s with
  | ran e => simp [collectOutcome, h, run_snapshot_name]
  | crashed m => simp [collectOutcome, h, mkFailResult]

/-- For every snapshot that was submitted and completed, the dict lookup by
its name succeeds and returns a result named after that snapshot. -/
theorem run_parallel_lookup (keep : Bool) (out : String)
    (wenv : TemporalSnapshot → WorkerOutcome) (completed : List TemporalSnapshot)
    (s : TemporalSnapshot) (hs : s ∈ completed) :
    ∃ r, (buildResultsDict keep out wenv completed).lookup s.name = some r ∧
      r.snapshot_name = s.name := by
  have hmem : s.name ∈ (buildResultsDict keep out wenv completed).map Prod.fst := by
    rw [buildResultsDict_eq]
    simp only [List.map_reverse, List.mem_reverse, List.map_map]
    exact List.mem_map.mpr ⟨s, hs, rfl⟩
  rcases lookup_isSome_of_mem _ _ hmem with ⟨r, hr⟩
  exact ⟨r, hr,
    lookup_entry_prop (fun k v => v.snapshot_name = k) _ _ _
      (buildResultsDict_entries keep out wenv completed) hr⟩

/-- In parallel mode, results come back one per input snapshot, in input
order, each named after its snapshot — for every completion order that is a
permutation of the submissions. -/
theorem run_parallel_names (keep : Bool) (out : String)
    (snapshots completed : List TemporalSnapshot)
    (wenv : TemporalSnapshot → WorkerOutcome)
    (hperm : completed.Perm snapshots) :
    (run_parallel keep out snapshots wenv completed).map
        (fun r => r.snapshot_name) = snapshots.map (fun s => s.name) := by
  unfold run_parallel
  rw [List.map_map]
  refine List.map_congr_left ?_
  intro s hs
  rcases run_parallel_lookup keep out wenv completed s (hperm.mem_iff.mpr hs) with
    ⟨r, hr, hname⟩
  simp [Function.comp, hr, hname]

/-- Serial results are in input order, each named after its snapshot. -/
theorem run_serial_names (keep : Bool) (out : String)
    (snapshots : List TemporalSnapshot) (env : TemporalSnapshot → TrialEnv) :
    (run_serial keep out snapshots env).map (fun r => r.snapshot_name) =
      snapshots.map (fun s => s.name) := by
  unfold run_serial
  rw [List.map_map]
  exact List.map_congr_left fun s _ => run_snapshot_name keep out s (env s)

/-- `run_all` always returns one result per input snapshot. -/
theorem run_all_length (keep : Bool) (out : String)
    (snapshots : List TemporalSnapshot) (parallel : Bool)
    (env : TemporalSnapshot → TrialEnv) (wenv : TemporalSnapshot → WorkerOutcome)
    (completed : List TemporalSnapshot) :
    (run_all keep out snapshots parallel env wenv completed).1.length =
      snapshots.length := by
  cases snapshots with
  | nil => simp [run_all]
  | cons s ss => cases parallel <;> simp [run_all, run_parallel, run_serial]

/-- If any declared snapshot table lacks `name` or `ref`, the validation loop
raises. -/
theorem parseSnapshots_error_of_bad (tables : List RawSnapshotTable)
    (c : RawSnapshotTable) (hc : c ∈ tables)
    (hbad : c.name = none ∨ c.ref = none) :
    ∃ m, parseSnapshots tables = .error m := by
  induction tables with
  | nil => simp at hc
  | cons t ts ih =>
    cases hn : t.name with
    | none =>
      exact ⟨"Temporal snapshot missing required field: name",
        by simp [parseSnapshots, hn]⟩
    | some n =>
      cases hr : t.ref with
      | none =>
        exact ⟨"Temporal snapshot " ++ n ++ " missing required field: ref",
          by simp [parseSnapshots, hn, hr]⟩
      | some r =>
        have hmem : c ∈ ts := by
          rcases List.mem_cons.mp hc with heq | hmem
          · subst heq
            rcases hbad with h | h
            · rw [hn] at h; simp at h
            · rw [hr] at h; simp at h
          · exact hmem
        rcases ih hmem with ⟨m, hm⟩
        exact ⟨m, by simp [parseSnapshots, hn, hr, hm]⟩

/-! ## Claims -/

/-- C1: for every snapshot list with unique names, `run_all` returns one
result per input whose `snapshot_name` matches the input's `name` position
by position — in serial mode and, for every completion order, in parallel
mode — and `run_all` of the empty list is empty with no collaborator
invocations at all. -/
theorem claim_run_all_order :
    (∀ (keep : Bool) (out : String) (snapshots : List TemporalSnapshot)
        (env : TemporalSnapshot → TrialEnv) (wenv : TemporalSnapshot → WorkerOutcome)
        (completed : List TemporalSnapshot),
      (run_all keep out snapshots false env wenv completed).1.map
          (fun r => r.snapshot_name) = snapshots.map (fun s => s.name) ∧
      (run_all keep out snapshots false env wenv completed).1.length =
        snapshots.length) ∧
    (∀ (keep : Bool) (out : String) (snapshots : List TemporalSnapshot)
        (env : TemporalSnapshot → TrialEnv) (wenv : TemporalSnapshot → WorkerOutcome)
        (completed : List TemporalSnapshot),
      (snapshots.map (fun s => s.name)).Nodup → completed.Perm snapshots →
      (run_all keep out snapshots true env wenv completed).1.map
          (fun r => r.snapshot_name) = snapshots.map (fun s => s.name) ∧
      (run_all keep out snapshots true env wenv completed).1.length =
        snapshots.length) ∧
    (∀ (keep : Bool) (out : String) (parallel : Bool)
        (env : TemporalSnapshot → TrialEnv) (wenv : TemporalSnapshot → WorkerOutcome)
        (completed : List TemporalSnapshot),
      run_all keep out [] parallel env wenv completed = ([], [])) := by
  refine ⟨?_, ?_, ?_⟩
  · intro keep out snapshots env wenv completed
    refine ⟨?_, run_all_length keep out snapshots false env wenv completed⟩
    cases snapshots with
    | nil => simp [run_all]
    | cons s ss => simpa [run_all] using run_serial_names keep out (s :: ss) env
  · intro keep out snapshots env wenv completed _ hperm
    refine ⟨?_, run_all_length keep out snapshots true env wenv completed⟩
    cases snapshots with
    | nil => simp [run_all]
    | cons s ss =>
      simpa [run_all] using run_parallel_names keep out (s :: ss) completed wenv hperm
  · intro keep out parallel env wenv completed
    simp [run_all]

/-- C1 witness: two snapshots `v1`, `v2` run in parallel with completion
order reversed still yield results named `v1`, `v2` in input order. -/
theorem claim_run_all_order_witness :
    (run_all false "out" [sampleSnapA, sampleSnapB] true (fun _ => sampleEnvOk)
        (fun _ => .ran sampleEnvOk) [sampleSnapB, sampleSnapA]).1.map
        (fun r => r.snapshot_name) = ["v1", "v2"] := by
  have h := (claim_run_all_order.2.1 false "out" [sampleSnapA, sampleSnapB]
      (fun _ => sampleEnvOk) (fun _ => .ran sampleEnvOk) [sampleSnapB, sampleSnapA]
      (by decide) (by decide)).1
  simpa [sampleSnapA, sampleSnapB] using h

/-- C2: every exception inside a trial (any step of `run_snapshot`) and every
exception escaping a parallel worker at the collection boundary is converted
into a failed result carrying the snapshot's name, `success = false`, the
(non-empty) error message, `has_differences = false` and no diff path; a
fully successful trial has `success = true` and `error = none`, and the
error field is present exactly when `success` is false; the batch always
returns one result per input regardless of such failures. -/
theorem claim_trial_error_conversion :
    (∀ (keep : Bool) (out : String) (s : TemporalSnapshot) (env : TrialEnv) (m : String),
      firstError env = some m → m ≠ "" →
      (run_snapshot keep out s env).result.snapshot_name = s.name ∧
      (run_snapshot keep out s env).result.success = false ∧
      (run_snapshot keep out s env).result.error = some m ∧
      (run_snapshot keep out s env).result.error ≠ some "" ∧
      (run_snapshot keep out s env).result.has_differences = false ∧
      (run_snapshot keep out s env).result.diff_path = none) ∧
    (∀ (keep : Bool) (out : String) (s : TemporalSnapshot) (msg : String), msg ≠ "" →
      collectOutcome keep out s (.crashed msg) = mkFailResult s.name msg ∧
      (mkFailResult s.name msg).snapshot_name = s.name ∧
      (mkFailResult s.name msg).success = false ∧
      (mkFailResult s.name msg).error = some msg ∧
      (mkFailResult s.name msg).error ≠ some "" ∧
      (mkFailResult s.name msg).has_differences = false ∧
      (mkFailResult s.name msg).diff_path = none) ∧
    (∀ (keep : Bool) (out : String) (s : TemporalSnapshot) (env : TrialEnv),
      firstError env = none →
      (run_snapshot keep out s env).result.success = true ∧
      (run_snapshot keep out s env).result.error = none) ∧
    (∀ (keep : Bool) (out : String) (s : TemporalSnapshot) (env : TrialEnv),
      (run_snapshot keep out s env).result.success = true ↔
        (run_snapshot keep out s env).result.error = none) ∧
    (∀ (keep : Bool) (out : String) (snapshots : List TemporalSnapshot)
        (parallel : Bool) (env : TemporalSnapshot → TrialEnv)
        (wenv : TemporalSnapshot → WorkerOutcome) (completed : List TemporalSnapshot),
      (run_all keep out snapshots parallel env wenv completed).1.length =
        snapshots.length) := by
  refine ⟨?_, ?_, ?_, ?_, ?_⟩
  · intro keep out s env m h hm
    have hres := run_snapshot_result_of_firstError keep out s env m h
    refine ⟨?_, ?_, ?_, ?_, ?_, ?_⟩ <;> simp [hres, mkFailResult, hm]
  · intro keep out s msg hm
    refine ⟨rfl, rfl, rfl, rfl, ?_, rfl, rfl⟩
    simp [mkFailResult, hm]
  · intro keep out s env h
    exact ⟨(run_snapshot_success_iff keep out s env).1.mpr h,
      (run_snapshot_success_iff keep out s env).2.mpr h⟩
  · intro keep out s env
    exact (run_snapshot_success_iff keep out s env).1.trans
      (run_snapshot_success_iff keep out s env).2.symm
  · intro keep out snapshots parallel env wenv completed
    exact run_all_length keep out snapshots parallel env wenv completed

/-- C2 witness: a trial whose checkout raises yields the attributed failed
result, and a sibling trial with no failures succeeds. -/
theorem claim_trial_error_conversion_witness :
    (run_snapshot false "out" sampleSnapA envCheckoutFail).result.success = false ∧
    (run_snapshot false "out" sampleSnapA envCheckoutFail).result.snapshot_name = "v1" ∧
    (run_snapshot false "out" sampleSnapB sampleEnvOk).result.success = true := by
  have h1 := claim_trial_error_conversion.1 false "out" sampleSnapA envCheckoutFail
    "error: pathspec did not match any file known to git" (by decide) (by decide)
  have h2 := claim_trial_error_conversion.2.2.1 false "out" sampleSnapB sampleEnvOk
    (by decide)
  exact ⟨h1.2.1, h1.1, h2.1⟩

/-- C3 counterexample: with retention requested and a failing `git clone`
step, the retained temporary directory does not contain the cloned project,
so the claim's unconditional "still exists and contains the cloned project"
is false on an exception-in-clone exit path. -/
theorem claim_tempdir_cleanup_counterexample :
    (run_snapshot true "out" sampleSnapA envCloneFail).tempDirExists = true ∧
    (run_snapshot true "out" sampleSnapA envCloneFail).projectPresent = false := by
  exact ⟨rfl, rfl⟩

/-- C3 (amended): on every exit path, without retention the trial's temporary
directory no longer exists afterwards; with retention it still exists, and it
contains the cloned project whenever the clone step itself succeeded (in
particular on every exit path after a successful clone, e.g. a failed
checkout or template application). -/
theorem claim_tempdir_cleanup (keep : Bool) (out : String)
    (s : TemporalSnapshot) (env : TrialEnv) :
    (keep = false → (run_snapshot keep out s env).tempDirExists = false ∧
      (run_snapshot keep out s env).projectPresent = false) ∧
    (keep = true → (run_snapshot keep out s env).tempDirExists = true ∧
      (env.clone = .ok () → (run_snapshot keep out s env).projectPresent = true)) := by
  have h := run_snapshot_tempdir keep out s env
  constructor
  · intro hk
    subst hk
    exact ⟨h.1, by simpa using h.2⟩
  · intro hk
    subst hk
    refine ⟨h.1, ?_⟩
    intro hclone
    rw [h.2, hclone]
    rfl

/-- C3 witness: with retention and a trial failing at checkout (clone
succeeded), the directory survives and contains the clone; without retention
it is removed. -/
theorem claim_tempdir_cleanup_witness :
    (run_snapshot true "out" sampleSnapA envCheckoutFail).tempDirExists = true ∧
    (run_snapshot true "out" sampleSnapA envCheckoutFail).projectPresent = true ∧
    (run_snapshot false "out" sampleSnapA envCheckoutFail).tempDirExists = false := by
  have h1 := (claim_tempdir_cleanup true "out" sampleSnapA envCheckoutFail).2 rfl
  have h2 := (claim_tempdir_cleanup false "out" sampleSnapA envCheckoutFail).1 rfl
  exact ⟨h1.1, h1.2 rfl, h2.1⟩

/-- C4: whenever `has_changes` is false the three change-sequences are empty
and `patch_file` is `none`; in particular for byte-identical trees (empty
diff output) the Diff Engine reports no changes, no patch, and empty
sequences. -/
theorem claim_diff_no_changes_invariant :
    (∀ (proc : DiffProc) (f : String),
      (generate_diff proc f).1.has_changes = false →
      (generate_diff proc f).1.changed = [] ∧
      (generate_diff proc f).1.added = [] ∧
      (generate_diff proc f).1.removed = [] ∧
      (generate_diff proc f).1.patch_file = none) ∧
    (∀ (rc : Int) (f : String),
      (generate_diff ⟨"", rc⟩ f).1.has_changes = false ∧
      (generate_diff ⟨"", rc⟩ f).1.patch_file = none ∧
      (generate_diff ⟨"", rc⟩ f).1.changed = [] ∧
      (generate_diff ⟨"", rc⟩ f).1.added = [] ∧
      (generate_diff ⟨"", rc⟩ f).1.removed = []) := by
  constructor
  · intro proc f h
    have hb : pyStripTruthy proc.stdout = false := by
      simpa [generate_diff] using h
    refine ⟨?_, rfl, rfl, ?_⟩ <;> simp [generate_diff, hb]
  · intro rc f
    refine ⟨?_, ?_, ?_, rfl, rfl⟩ <;> rfl

/-- C4 witness: the invariant instantiated at an empty diff output. -/
theorem claim_diff_no_changes_invariant_witness :
    (generate_diff ⟨"", 0⟩ "out/v1/diff.patch").1.changed = [] ∧
    (generate_diff ⟨"", 0⟩ "out/v1/diff.patch").1.patch_file = none := by
  have h := claim_diff_no_changes_invariant.1 ⟨"", 0⟩ "out/v1/diff.patch" (by decide)
  exact ⟨h.1, h.2.2.2⟩

/-- C5: no path ever appears in more than one of the three change-sequences;
and for a diff output consisting of a single well-formed `diff --git` header
(two trees differing in exactly one file) the engine reports changes, a
non-empty patch artifact, and that file's header path in exactly one
sequence, namely `changed`. -/
theorem claim_diff_one_file_classification :
    (∀ (proc : DiffProc) (f p : String),
      ¬(p ∈ (generate_diff proc f).1.changed ∧ p ∈ (generate_diff proc f).1.added) ∧
      ¬(p ∈ (generate_diff proc f).1.changed ∧ p ∈ (generate_diff proc f).1.removed) ∧
      ¬(p ∈ (generate_diff proc f).1.added ∧ p ∈ (generate_diff proc f).1.removed)) ∧
    (∀ (stdout : String) (rc : Int) (f header : String) (rest : List String)
        (a b : String),
      pySplitOnNewline stdout = header :: rest →
      pyStartsWith header "diff --git" = true →
      pySplitWs header = ["diff", "--git", a, b] →
      (∀ l ∈ rest, pyStartsWith l "diff --git" = false) →
      pyStripTruthy stdout = true →
      (generate_diff ⟨stdout, rc⟩ f).1.has_changes = true ∧
      (generate_diff ⟨stdout, rc⟩ f).1.patch_file = some f ∧
      (generate_diff ⟨stdout, rc⟩ f).2.content = stdout ∧ stdout ≠ "" ∧
      (generate_diff ⟨stdout, rc⟩ f).1.changed = [pyReplaceASlash a] ∧
      pyReplaceASlash a ∈ (generate_diff ⟨stdout, rc⟩ f).1.changed ∧
      pyReplaceASlash a ∉ (generate_diff ⟨stdout, rc⟩ f).1.added ∧
      pyReplaceASlash a ∉ (generate_diff ⟨stdout, rc⟩ f).1.removed) := by
  constructor
  · intro proc f p
    refine ⟨?_, ?_, ?_⟩ <;> simp [generate_diff]
  · intro stdout rc f header rest a b hsplit hstart hparts hrest htruthy
    have hchanged : (generate_diff ⟨stdout, rc⟩ f).1.changed = [pyReplaceASlash a] := by
      have hgen : (generate_diff ⟨stdout, rc⟩ f).1.changed =
          extractChanged (pySplitOnNewline stdout) := by
        simp [generate_diff, htruthy]
      rw [hgen, hsplit]
      exact extractChanged_single_header header rest a b hstart hparts hrest
    refine ⟨?_, ?_, rfl, ?_, hchanged, ?_, ?_, ?_⟩
    · simp [generate_diff, htruthy]
    · simp [generate_diff, htruthy]
    · intro h
      subst h
      exact absurd htruthy (by decide)
    · rw [hchanged]; exact List.mem_singleton.mpr rfl
    · simp [generate_diff]
    · simp [generate_diff]

/-- C5 witness: the single-header scenario instantiated at a concrete
one-file diff output. -/
theorem claim_diff_one_file_classification_witness :
    (generate_diff ⟨sampleDiffOutput, 1⟩ "diff.patch").1.has_changes = true ∧
    (generate_diff ⟨sampleDiffOutput, 1⟩ "diff.patch").1.patch_file = some "diff.patch" ∧
    (generate_diff ⟨sampleDiffOutput, 1⟩ "diff.patch").1.changed = ["original/file.txt"] ∧
    (generate_diff ⟨sampleDiffOutput, 1⟩ "diff.patch").1.added = [] ∧
    (generate_diff ⟨sampleDiffOutput, 1⟩ "diff.patch").1.removed = [] := by
  have h := claim_diff_one_file_classification.2 sampleDiffOutput 1 "diff.patch"
    "diff --git a/original/file.txt b/updated/file.txt"
    ["--- a/original/file.txt", "+++ b/updated/file.txt", "@@ -1 +1 @@", "-old", "+new", ""]
    "a/original/file.txt" "b/updated/file.txt"
    (by decide) (by decide) (by decide) (by decide) (by decide)
  refine ⟨h.1, h.2.1, ?_, rfl, rfl⟩
  rw [h.2.2.2.2.1]
  decide

/-- C6 counterexample: on byte-identical trees (empty diff output) the engine
still performs `output_file.write_text('')`, creating an empty file at the
output path, so "does not create a file at the given output path" is false. -/
theorem claim_no_patch_file_counterexample :
    (generate_diff ⟨"", 0⟩ "out/v1/diff.patch").1.has_changes = false ∧
    (generate_diff ⟨"", 0⟩ "out/v1/diff.patch").2 =
      FileWrite.mk "out/v1/diff.patch" "" := by
  exact ⟨rfl, rfl⟩

/-- C6 (amended): the Diff Engine unconditionally writes the diff output to
the output path — creating an empty `diff.patch` file when the trees are
byte-identical — but the returned Diff Result then has `has_changes = false`
and `patch_file = none`, so the result does not reference the file. -/
theorem claim_no_patch_file (proc : DiffProc) (f : String) :
    (generate_diff proc f).2 = FileWrite.mk f proc.stdout ∧
    (pyStripTruthy proc.stdout = false →
      (generate_diff proc f).1.has_changes = false ∧
      (generate_diff proc f).1.patch_file = none) := by
  refine ⟨rfl, ?_⟩
  intro h
  constructor <;> simp [generate_diff, h]

/-- C6 witness: the amended behavior at an empty diff output. -/
theorem claim_no_patch_file_witness :
    (generate_diff ⟨"", 0⟩ "d").2 = FileWrite.mk "d" "" ∧
    (generate_diff ⟨"", 0⟩ "d").1.patch_file = none := by
  have h := claim_no_patch_file ⟨"", 0⟩ "d"
  exact ⟨h.1, (h.2 (by decide)).2⟩

/-- C7 counterexample: a diff subprocess that exits with the unexpected error
status 2 and empty stdout (all earlier steps fine) produces a trial reported
as a success with no differences — not the failed Test Result the claim
requires. -/
theorem claim_diff_tool_failure_counterexample :
    (run_snapshot false "out" sampleSnapA envDiffErrorExit).result.success = true ∧
    (run_snapshot false "out" sampleSnapA envDiffErrorExit).result.has_differences
      = false ∧
    (run_snapshot false "out" sampleSnapA envDiffErrorExit).result.error = none := by
  exact ⟨rfl, rfl, rfl⟩

/-- C7 (amended): the diff subprocess's exit status is ignored entirely — the
Diff Result is a function of captured stdout alone, so an unexpected error
exit with empty output is reported as a successful trial with no differences;
only an exception raised by the diff invocation itself (e.g. a missing `git`
executable) is caught and converted into a failed Test Result. -/
theorem claim_diff_tool_failure :
    (∀ (st : String) (rc rcOther : Int) (f : String),
      generate_diff ⟨st, rc⟩ f = generate_diff ⟨st, rcOther⟩ f) ∧
    (∀ (keep : Bool) (out : String) (s : TemporalSnapshot) (rc : Int),
      (run_snapshot keep out s
          ⟨.ok (), .ok (), .ok (), .ok (), .ok (), .ok ⟨"", rc⟩⟩).result.success = true ∧
      (run_snapshot keep out s
          ⟨.ok (), .ok (), .ok (), .ok (), .ok (), .ok ⟨"", rc⟩⟩).result.has_differences
        = false) ∧
    (∀ (keep : Bool) (out : String) (s : TemporalSnapshot) (m : String),
      (run_snapshot keep out s
          ⟨.ok (), .ok (), .ok (), .ok (), .ok (), .error m⟩).result =
        mkFailResult s.name m) := by
  refine ⟨?_, ?_, ?_⟩
  · intro st rc rcOther f
    rfl
  · intro keep out s rc
    cases keep <;> exact ⟨rfl, rfl⟩
  · intro keep out s m
    cases keep <;> rfl

/-- C8: with temporal testing enabled, a missing (or empty) `source_project`
and a snapshot table missing `name` or `ref` each make configuration loading
raise `ValueError`; and when configuration loading raises, the temporal run
performs no trial work at all — no temp directory is created and no
collaborator is invoked. -/
theorem claim_config_validation :
    (∀ tc : RawTemporalTable, tc.enabled = true →
      (tc.source_project = none ∨ tc.source_project = some "") →
      ∃ m, load_temporal_config (some tc) = .error m) ∧
    (∀ (tc : RawTemporalTable) (c : RawSnapshotTable), tc.enabled = true →
      c ∈ tc.snapshots → (c.name = none ∨ c.ref = none) →
      ∃ m, load_temporal_config (some tc) = .error m) ∧
    (∀ (temporal : Option RawTemporalTable) (out : String)
        (parallelOverride : Option Bool) (keepFlag : Bool)
        (env : TemporalSnapshot → TrialEnv) (wenv : TemporalSnapshot → WorkerOutcome)
        (completed : List TemporalSnapshot) (m : String),
      load_temporal_config temporal = .error m →
      run_temporal temporal out parallelOverride keepFlag env wenv completed = []) := by
  refine ⟨?_, ?_, ?_⟩
  · intro tc hen hsp
    rcases hsp with h | h
    · exact ⟨"Temporal testing enabled but source_project not specified in [temporal]",
        by simp [load_temporal_config, hen, h]⟩
    · exact ⟨"Temporal testing enabled but source_project not specified in [temporal]",
        by simp [load_temporal_config, hen, h]⟩
  · intro tc c hen hc hbad
    rcases hsp : tc.source_project with _ | sp
    · exact ⟨"Temporal testing enabled but source_project not specified in [temporal]",
        by simp [load_temporal_config, hen, hsp]⟩
    · by_cases hempty : sp = ""
      · exact ⟨"Temporal testing enabled but source_project not specified in [temporal]",
          by simp [load_temporal_config, hen, hsp, hempty]⟩
      · rcases parseSnapshots_error_of_bad tc.snapshots c hc hbad with ⟨m, hm⟩
        exact ⟨m, by simp [load_temporal_config, hen, hsp, hempty, hm]⟩
  · intro temporal out parallelOverride keepFlag env wenv completed m h
    unfold run_temporal
    rw [h]

/-- C8 witness: an enabled temporal table with no `source_project` fails to
load, and the temporal run for it performs no trial events. -/
theorem claim_config_validation_witness :
    (∃ m, load_temporal_config (some ⟨true, none, none, false, false, []⟩) = .error m) ∧
    run_temporal (some ⟨true, none, none, false, false, []⟩) "out" none false
      (fun _ => sampleEnvOk) (fun _ => .ran sampleEnvOk) [] = [] := by
  have h := claim_config_validation.1 ⟨true, none, none, false, false, []⟩ rfl (Or.inl rfl)
  rcases h with ⟨m, hm⟩
  exact ⟨⟨m, hm⟩, claim_config_validation.2.2 (some ⟨true, none, none, false, false, []⟩)
    "out" none false (fun _ => sampleEnvOk) (fun _ => .ran sampleEnvOk) [] m hm⟩

/-- C9: VCS detection checks the `.jj` then `.git` marker directories first,
spawning no subprocess when either is present (Jujutsu wins when both
markers exist), then falls back to `jj workspace root` and then
`git rev-parse --show-toplevel`, and fails with the no-VCS `RuntimeError`
when neither backend is detected. -/
theorem claim_vcs_detection :
    (∀ (cwd : String) (env : VCSEnv), env.jjDirExists = true →
      detect_vcs cwd env = (.ok .jujutsu, [])) ∧
    (∀ (cwd : String) (env : VCSEnv), env.jjDirExists = false →
      env.gitDirExists = true → detect_vcs cwd env = (.ok .git, [])) ∧
    (∀ (cwd : String) (env : VCSEnv) (root : String), env.jjDirExists = false →
      env.gitDirExists = false → env.jjRootCmd = .ok root →
      detect_vcs cwd env = (.ok .jujutsu, [.jjWorkspaceRoot])) ∧
    (∀ (cwd : String) (env : VCSEnv) (e : Unit) (root : String),
      env.jjDirExists = false → env.gitDirExists = false →
      env.jjRootCmd = .error e → env.gitRootCmd = .ok root →
      detect_vcs cwd env = (.ok .git, [.jjWorkspaceRoot, .gitRevParse])) ∧
    (∀ (cwd : String) (env : VCSEnv) (e eGit : Unit),
      env.jjDirExists = false → env.gitDirExists = false →
      env.jjRootCmd = .error e → env.gitRootCmd = .error eGit →
      detect_vcs cwd env =
        (.error ("No VCS detected in " ++ cwd ++ " (tried: jujutsu, git)"),
          [.jjWorkspaceRoot, .gitRevParse])) := by
  refine ⟨?_, ?_, ?_, ?_, ?_⟩
  · intro cwd env h
    simp [detect_vcs, h]
  · intro cwd env h hg
    simp [detect_vcs, h, hg]
  · intro cwd env root h hg hjj
    simp [detect_vcs, h, hg, hjj]
  · intro cwd env e root h hg hjj hgit
    simp [detect_vcs, h, hg, hjj, hgit]
  · intro cwd env e eGit h hg hjj hgit
    simp [detect_vcs, h, hg, hjj, hgit]

/-- C9 witness: both markers present selects Jujutsu with no subprocess;
no marker and both commands failing yields the no-VCS error. -/
theorem claim_vcs_detection_witness :
    detect_vcs "/repo" ⟨true, true, .error (), .error ()⟩ = (.ok .jujutsu, []) ∧
    detect_vcs "/repo" ⟨false, false, .error (), .error ()⟩ =
      (.error "No VCS detected in /repo (tried: jujutsu, git)",
        [.jjWorkspaceRoot, .gitRevParse]) := by
  have h1 := claim_vcs_detection.1 "/repo" ⟨true, true, .error (), .error ()⟩ rfl
  have h2 := claim_vcs_detection.2.2.2.2 "/repo" ⟨false, false, .error (), .error ()⟩
    () () rfl rfl rfl rfl
  exact ⟨h1, h2⟩

/-- C10: for every diff-tool output and output path, the Diff Engine's
`added` and `removed` sequences are empty — only `changed` is ever
populated by the diff-header parsing. -/
theorem claim_diff_only_changed_bucket (proc : DiffProc) (f : String) :
    (generate_diff proc f).1.added = [] ∧ (generate_diff proc f).1.removed = [] := by
  exact ⟨rfl, rfl⟩

end Ctt
